import Mathlib

set_option maxRecDepth 100000

/-!
Shallow embedding of `daily-job-search/fetch_jobs.py`.

The script fetches remote Data Analyst job postings from three sources
(the Remotive API plus two best-effort HTML scrapes), deduplicates them,
renders an HTML table and emails it via SendGrid.  Network responses are
modelled by an explicit `FetchResult` value; the standard-library
`urllib.parse.urljoin` is not part of the repository and is modelled as an
abstract join function passed to the scrape fetchers.
-/

namespace DailyJobSearch

/-! ### Python string primitives -/

/-- `str.lower()` restricted to ASCII, character by character. -/
def pyLower (s : String) : String :=
  String.mk (s.data.map Char.toLower)

/-- Helper for substring search over character lists. -/
def listContainsSub (needle : List Char) : List Char → Bool
  | [] => needle.isEmpty
  | c :: rest => needle.isPrefixOf (c :: rest) || listContainsSub needle rest

/-- Python's `needle in hay` substring test. -/
def strContains (hay needle : String) : Bool :=
  listContainsSub needle.data hay.data

/-- Counts the occurrences of `needle` in a character list. -/
def countSubAux (needle : List Char) : List Char → Nat
  | [] => 0
  | c :: rest => (if needle.isPrefixOf (c :: rest) then 1 else 0) + countSubAux needle rest

/-- Number of (possibly overlapping) occurrences of `needle` in `hay`. -/
def countSubstr (hay needle : String) : Nat :=
  countSubAux needle.data hay.data

/-- The whitespace characters stripped by Python's `str.strip()`. -/
def pyIsSpace (c : Char) : Bool :=
  c = ' ' || c = '\t' || c = '\n' || c = '\r' || c = '\x0b' || c = '\x0c'

/-- Python's `str.strip()`: drop leading and trailing whitespace. -/
def pyStrip (s : String) : String :=
  String.mk (((s.data.dropWhile pyIsSpace).reverse.dropWhile pyIsSpace).reverse)

/-- Python's `str.startswith(pre)`. -/
def pyStartswith (s pre : String) : Bool :=
  pre.data.isPrefixOf s.data

/-- Python truthiness of an optional string (`None` and `""` are falsy). -/
def pyTruthy : Option String → Bool
  | none => false
  | some s => s != ""

/-- Python f-string rendering of an optional string (`None` prints as `"None"`). -/
def pyStr : Option String → String
  | none => "None"
  | some s => s

/-- Python's `x or d` for an optional string `x` (falsy values replaced by `d`). -/
def pyOrStr (o : Option String) (d : String) : String :=
  match o with
  | none => d
  | some s => if s = "" then d else s

/-! ### Data model -/

/-- A job record as built by the fetchers (the dict with six keys).
`link` is `Option` because `j.get("url")` can be `None`. -/
structure Job where
  company : String
  title : String
  location : String
  link : Option String
  keywords : String
  skills : String
deriving DecidableEq, Repr

/-- Outcome of one fetcher's HTTP round trip: a parsed payload, or any of
the failures the `except Exception` arm of the fetcher catches. -/
inductive FetchResult (α : Type) where
  | ok (payload : α)
  | netError
  | httpError (status : Nat)
  | parseError
deriving DecidableEq

/-- Whether the round trip failed (anything but `ok`). -/
def FetchResult.isFailure {α : Type} : FetchResult α → Bool
  | .ok _ => false
  | _ => true

/-- One raw listing of the Remotive API's JSON `jobs` array. -/
structure RemotiveListing where
  title : String
  company_name : Option String
  candidate_required_location : Option String
  url : Option String
deriving DecidableEq

/-- One `<a href=...>` element as seen by the scrape fetchers: its visible
text (`get_text`) and its `href` attribute. -/
structure Anchor where
  text : String
  href : String
deriving DecidableEq, Repr

/-! ### Source fetchers -/

/-- The Remotive title filter
(`"data analyst" in t.lower() or "data" in t.lower() and "analyst" in t.lower()`;
Python parses this as `A or (B and C)`). -/
def remotiveTitleMatch (t : String) : Bool :=
  strContains (pyLower t) "data analyst" ||
    (strContains (pyLower t) "data" && strContains (pyLower t) "analyst")

/-- Maps one surviving Remotive listing to a job record. -/
def remotiveJob (j : RemotiveListing) : Job :=
  ⟨pyOrStr j.company_name "-", j.title,
   pyOrStr j.candidate_required_location "Remote", j.url,
   "analysis; reporting; dashboards; metrics; data",
   "Python; SQL; Excel; BI tools; statistics"⟩

/-- `fetch_remotive`: on success, filter the listings by title and map them;
on any failure, return the empty list. -/
def fetch_remotive (r : FetchResult (List RemotiveListing)) : List Job :=
  match r with
  | .ok listings =>
      listings.filterMap fun j =>
        if remotiveTitleMatch j.title then some (remotiveJob j) else none
  | _ => []

/-- `href if href.startswith("http") else urljoin(base, href)`, with the
standard library's `urljoin` abstracted as `uj`. -/
def resolveHref (uj : String → String → String) (base href : String) : String :=
  if pyStartswith href "http" then href else uj base href

/-- The TopStartups anchor filter: `"analyst" in txt.lower() and len(txt) < 200`. -/
def topstartupsMatch (t : String) : Bool :=
  strContains (pyLower t) "analyst" && decide (t.length < 200)

/-- Per-anchor body of the `fetch_topstartups` loop: skip anchors with an
empty `href` or empty text, filter by `topstartupsMatch`, emit the job. -/
def topstartupsAnchorJob (uj : String → String → String) (a : Anchor) : Option Job :=
  if a.href = "" then none
  else if a.text = "" then none
  else if topstartupsMatch a.text then
    some ⟨"-", a.text, "Remote",
      some (resolveHref uj "https://topstartups.io" a.href),
      "data; metrics; dashboards; insights; reporting",
      "SQL; Python; visualization; data pipelines; statistics"⟩
  else none

/-- `fetch_topstartups`: on success, run the anchor loop; on failure, `[]`. -/
def fetch_topstartups (uj : String → String → String)
    (r : FetchResult (List Anchor)) : List Job :=
  match r with
  | .ok anchors => anchors.filterMap (topstartupsAnchorJob uj)
  | _ => []

/-- The Wellfound anchor filter:
`"data analyst" in txt.lower() or ("data" in txt.lower() and "analyst" in txt.lower())`. -/
def wellfoundMatch (t : String) : Bool :=
  strContains (pyLower t) "data analyst" ||
    (strContains (pyLower t) "data" && strContains (pyLower t) "analyst")

/-- Per-anchor body of the `fetch_wellfound` loop. -/
def wellfoundAnchorJob (uj : String → String → String) (a : Anchor) : Option Job :=
  if a.href = "" then none
  else if a.text = "" then none
  else if wellfoundMatch a.text then
    some ⟨"-", a.text, "Remote",
      some (resolveHref uj "https://wellfound.com" a.href),
      "data; metrics; reporting; dashboards; insights",
      "SQL; Python; Looker/Tableau; Excel; stats"⟩
  else none

/-- `fetch_wellfound`: on success, run the anchor loop; on failure, `[]`. -/
def fetch_wellfound (uj : String → String → String)
    (r : FetchResult (List Anchor)) : List Job :=
  match r with
  | .ok anchors => anchors.filterMap (wellfoundAnchorJob uj)
  | _ => []

/-! ### Deduplicator -/

/-- The identity key of a job:
`(j.get("link") or "").strip() or (j.get("company","") + "|" + j.get("title",""))`. -/
def jobKey (j : Job) : String :=
  let stripped := pyStrip (j.link.getD "")
  if stripped = "" then j.company ++ "|" ++ j.title else stripped

/-- The single pass of `dedupe_jobs`, carrying the `seen` key set. -/
def dedupeAux (seen : List String) : List Job → List Job
  | [] => []
  | j :: rest =>
    if jobKey j ∈ seen then dedupeAux seen rest
    else j :: dedupeAux (jobKey j :: seen) rest

/-- `dedupe_jobs`: drop every job whose key was already seen. -/
def dedupe_jobs (jobs : List Job) : List Job :=
  dedupeAux [] jobs

/-! ### Renderer -/

/-- One `<tr>` of the table body, with the six `<td>` cells in source order. -/
def jobRow (j : Job) : String :=
  "<tr>" ++
  "<td>" ++ j.company ++ "</td>" ++
  "<td>" ++ j.title ++ "</td>" ++
  "<td>" ++ j.location ++ "</td>" ++
  "<td><a href=\x27" ++ pyStr j.link ++ "\x27>Apply</a></td>" ++
  "<td>" ++ j.keywords ++ "</td>" ++
  "<td>" ++ j.skills ++ "</td>" ++
  "</tr>"

/-- The `rows` accumulator of `build_html_table` (`rows += ...` per job). -/
def rowsStr (jobs : List Job) : String :=
  jobs.foldl (fun acc j => acc ++ jobRow j) ""

/-- `build_html_table`: heading, attribution line, and the table with its
fixed header row around the accumulated body rows. -/
def build_html_table (jobs : List Job) : String :=
  "<h2>Daily Remote Data Analyst Jobs — Consolidated</h2>" ++
  "<p>Source: Remotive API + TopStartups + Wellfound (best-effort scraping)</p>" ++
  "<table border=\x271\x27 cellpadding=\x276\x27 style=\x27border-collapse:collapse;\x27>" ++
  "<thead><tr><th>Company</th><th>Title</th><th>Location</th><th>Link</th><th>Keywords</th><th>Skills</th></tr></thead>" ++
  "<tbody>" ++ rowsStr jobs ++ "</tbody></table>"

/-- The email body chosen by `main`: the fixed paragraph when the deduplicated
list is empty, otherwise the full table. -/
def renderJobs (jobs : List Job) : String :=
  if jobs.isEmpty then "<p>No remote Data Analyst jobs found today.</p>"
  else build_html_table jobs

/-! ### Notifier and orchestrator -/

/-- The effects `send_email` performs after the credential check. -/
inductive NotifierStep where
  | buildMessage
  | apiSend
deriving DecidableEq

/-- `send_email`: raises `RuntimeError` when `SENDGRID_API_KEY` is falsy
(absent or empty), before building the message or calling the API;
otherwise builds the `Mail` and submits it. -/
def send_email (key : Option String) (html_body : String) :
    Except String (List NotifierStep) :=
  if pyTruthy key then Except.ok [NotifierStep.buildMessage, NotifierStep.apiSend]
  else Except.error "SENDGRID_API_KEY not set in environment"

/-- The concatenation `all_jobs` built by `main` from the three fetchers'
results, in call order. -/
def allJobs (uj : String → String → String)
    (r1 : FetchResult (List RemotiveListing))
    (r2 r3 : FetchResult (List Anchor)) : List Job :=
  fetch_remotive r1 ++ fetch_topstartups uj r2 ++ fetch_wellfound uj r3

/-- `main`, parameterised by the three fetched lists: dedupe, choose the
body, send it; the `RuntimeError` of `send_email` propagates. -/
def main (key : Option String) (l1 l2 l3 : List Job) : Except String String :=
  let body := renderJobs (dedupe_jobs (l1 ++ l2 ++ l3))
  (send_email key body).map (fun _ => body)

/-! ### Spec-side definitions and concrete demo values -/

/-- Modelled from the spec: the case-insensitive "data analyst" rule the spec
attributes to the title filter and to both scrape filters — contains
"data analyst", or contains both "data" and "analyst" as substrings. -/
def specDataAnalystRule (t : String) : Bool :=
  strContains (pyLower t) "data analyst" ||
    (strContains (pyLower t) "data" && strContains (pyLower t) "analyst")

/-- A concrete stand-in for `urljoin`, used to instantiate theorems that are
generic over the join function. -/
def ujConcat (base href : String) : String :=
  base ++ href

/-- The single job of the spec's renderer example. -/
def acmeJob : Job :=
  ⟨"Acme", "Data Analyst", "Remote", some "https://x/1", "k", "s"⟩

/-- A second job, with a distinct link. -/
def betaJob : Job :=
  ⟨"Beta", "Data Analyst II", "Remote", some "https://x/2", "k", "s"⟩

/-- A job whose link duplicates `acmeJob`'s link. -/
def dupJob : Job :=
  ⟨"-", "T3", "Remote", some "https://x/1", "kw", "sk"⟩

/-- Concatenated pipeline input used by the dedupe witness. -/
def demoInput : List Job :=
  [acmeJob, betaJob, dupJob]

/-- The job `fetch_topstartups` emits for an anchor with text "data analyst"
and href "mailto:x", under the `ujConcat` join function. -/
def demoMailtoJob : Job :=
  ⟨"-", "data analyst", "Remote", some "https://topstartups.iomailto:x",
   "data; metrics; dashboards; insights; reporting",
   "SQL; Python; visualization; data pipelines; statistics"⟩

/-! ### Deduplicator lemmas -/

theorem dedupeAux_not_mem_seen : ∀ (l : List Job) (seen : List String) (j : Job),
    j ∈ dedupeAux seen l → jobKey j ∉ seen := by
  intro l
  induction l with
  | nil => intro seen j h; simp [dedupeAux] at h
  | cons a rest ih =>
    intro seen j h
    simp only [dedupeAux] at h
    by_cases hk : jobKey a ∈ seen
    · rw [if_pos hk] at h
      exact ih seen j h
    · rw [if_neg hk] at h
      rcases List.mem_cons.mp h with rfl | hmem
      · exact hk
      · intro hs
        exact ih _ j hmem (List.mem_cons_of_mem _ hs)

theorem dedupeAux_pairwise : ∀ (l : List Job) (seen : List String),
    (dedupeAux seen l).Pairwise (fun a b => jobKey a ≠ jobKey b) := by
  intro l
  induction l with
  | nil => intro seen; simp [dedupeAux]
  | cons a rest ih =>
    intro seen
    simp only [dedupeAux]
    by_cases hk : jobKey a ∈ seen
    · rw [if_pos hk]
      exact ih seen
    · rw [if_neg hk]
      refine List.Pairwise.cons ?_ (ih _)
      intro b hb heq
      exact dedupeAux_not_mem_seen rest _ b hb (heq ▸ List.mem_cons_self _ _)

theorem dedupeAux_sublist : ∀ (l : List Job) (seen : List String),
    (dedupeAux seen l).Sublist l := by
  intro l
  induction l with
  | nil => intro seen; simp [dedupeAux]
  | cons a rest ih =>
    intro seen
    simp only [dedupeAux]
    by_cases hk : jobKey a ∈ seen
    · rw [if_pos hk]
      exact (ih seen).cons a
    · rw [if_neg hk]
      exact (ih _).cons₂ a

theorem dedupeAux_find : ∀ (l : List Job) (seen : List String) (j : Job),
    j ∈ dedupeAux seen l → l.find? (fun x => jobKey x == jobKey j) = some j := by
  intro l
  induction l with
  | nil => intro seen j h; simp [dedupeAux] at h
  | cons a rest ih =>
    intro seen j h
    simp only [dedupeAux] at h
    by_cases hk : jobKey a ∈ seen
    · rw [if_pos hk] at h
      have hne : jobKey a ≠ jobKey j := by
        intro he
        exact dedupeAux_not_mem_seen rest seen j h (he ▸ hk)
      rw [List.find?_cons_of_neg _ (by simp [hne])]
      exact ih seen j h
    · rw [if_neg hk] at h
      rcases List.mem_cons.mp h with rfl | hmem
      · rw [List.find?_cons_of_pos _ (by simp)]
      · have hne : jobKey a ≠ jobKey j := by
          intro he
          exact dedupeAux_not_mem_seen rest _ j hmem (he ▸ List.mem_cons_self _ _)
        rw [List.find?_cons_of_neg _ (by simp [hne])]
        exact ih _ j hmem

theorem dedupeAux_covers : ∀ (l : List Job) (seen : List String) (j : Job), j ∈ l →
    jobKey j ∈ seen ∨ ∃ j', j' ∈ dedupeAux seen l ∧ jobKey j' = jobKey j := by
  intro l
  induction l with
  | nil => intro seen j h; exact absurd h (List.not_mem_nil j)
  | cons a rest ih =>
    intro seen j h
    simp only [dedupeAux]
    rcases List.mem_cons.mp h with rfl | hmem
    · by_cases hk : jobKey j ∈ seen
      · exact Or.inl hk
      · rw [if_neg hk]
        exact Or.inr ⟨j, List.mem_cons_self _ _, rfl⟩
    · by_cases hk : jobKey a ∈ seen
      · rw [if_pos hk]
        exact ih seen j hmem
      · rw [if_neg hk]
        rcases ih (jobKey a :: seen) j hmem with hs | ⟨j', hj', he⟩
        · rcases List.mem_cons.mp hs with he | hs'
          · exact Or.inr ⟨a, List.mem_cons_self _ _, he.symm⟩
          · exact Or.inl hs'
        · exact Or.inr ⟨j', List.mem_cons_of_mem _ hj', he⟩

theorem dedupeAux_eq_self : ∀ (l : List Job) (seen : List String),
    (∀ j ∈ l, jobKey j ∉ seen) →
    l.Pairwise (fun a b => jobKey a ≠ jobKey b) →
    dedupeAux seen l = l := by
  intro l
  induction l with
  | nil => intro seen _ _; rfl
  | cons a rest ih =>
    intro seen hseen hpw
    have hk : jobKey a ∉ seen := hseen a (List.mem_cons_self _ _)
    simp only [dedupeAux, if_neg hk]
    congr 1
    refine ih _ ?_ (List.pairwise_cons.mp hpw).2
    intro j hj hmem
    rcases List.mem_cons.mp hmem with he | hs
    · exact (List.pairwise_cons.mp hpw).1 j hj he.symm
    · exact hseen j (List.mem_cons_of_mem _ hj) hs

/-! ### Claim theorems -/

/-- Claim C1 (corrected): the two scrape fetchers do not share one rule.
For every anchor with non-empty text and href, `fetch_topstartups` emits a
job exactly when the text contains "analyst" (case-insensitively) and has
length under 200, while `fetch_wellfound` emits exactly when the text
satisfies the "data analyst"-or-"data"+"analyst" rule. -/
theorem scrape_filters (uj : String → String → String) (a : Anchor)
    (ht : a.text ≠ "") (hh : a.href ≠ "") :
    ((topstartupsAnchorJob uj a).isSome
        = (strContains (pyLower a.text) "analyst" && decide (a.text.length < 200))) ∧
    ((wellfoundAnchorJob uj a).isSome = specDataAnalystRule a.text) := by
  have h1 : (topstartupsAnchorJob uj a).isSome = topstartupsMatch a.text := by
    simp only [topstartupsAnchorJob, if_neg hh, if_neg ht]
    cases hm : topstartupsMatch a.text with
    | false => simp [hm]
    | true => simp [hm]
  have h2 : (wellfoundAnchorJob uj a).isSome = wellfoundMatch a.text := by
    simp only [wellfoundAnchorJob, if_neg hh, if_neg ht]
    cases hm : wellfoundMatch a.text with
    | false => simp [hm]
    | true => simp [hm]
  exact ⟨h1, h2⟩

-- Witness for C1: a concrete anchor accepted by both fetchers.
theorem scrape_filters_witness :
    (topstartupsAnchorJob ujConcat ⟨"Data Analyst", "/x"⟩).isSome = true ∧
    (wellfoundAnchorJob ujConcat ⟨"Data Analyst", "/x"⟩).isSome = true := by
  have h := scrape_filters ujConcat ⟨"Data Analyst", "/x"⟩ (by decide) (by decide)
  exact ⟨by rw [h.1]; decide, by rw [h.2]; decide⟩

-- Counterexample for C1 as stated: "Business Analyst" is emitted by the
-- TopStartups fetcher but fails the claimed "data"+"analyst" rule.
theorem scrape_filters_cex :
    (topstartupsAnchorJob ujConcat ⟨"Business Analyst", "/j/1"⟩).isSome = true ∧
    (specDataAnalystRule "Business Analyst"
        && decide (("Business Analyst" : String).length < 200)) = false := by
  exact ⟨by decide, by decide⟩

/-- Claim C2: the email body for an empty deduplicated job list is exactly
the fixed "no jobs found" paragraph, which contains no table element. -/
theorem render_empty_no_jobs :
    renderJobs [] = "<p>No remote Data Analyst jobs found today.</p>" ∧
    strContains (renderJobs []) "<table" = false := by
  exact ⟨rfl, by decide⟩

/-- Claim C3: no two entries of `dedupe_jobs jobs` share an identity key. -/
theorem dedupe_no_dup_keys (jobs : List Job) :
    (dedupe_jobs jobs).Pairwise (fun a b => jobKey a ≠ jobKey b) :=
  dedupeAux_pairwise jobs []

/-- Claim C4: `dedupe_jobs` returns a stable subsequence of its input, every
kept entry is the first input entry with its key, every input key survives,
and `dedupe_jobs` is idempotent. -/
theorem dedupe_first_seen_stable_idempotent (jobs : List Job) :
    (dedupe_jobs jobs).Sublist jobs ∧
    (∀ j ∈ dedupe_jobs jobs, jobs.find? (fun x => jobKey x == jobKey j) = some j) ∧
    (∀ j ∈ jobs, ∃ j', j' ∈ dedupe_jobs jobs ∧ jobKey j' = jobKey j) ∧
    dedupe_jobs (dedupe_jobs jobs) = dedupe_jobs jobs := by
  refine ⟨dedupeAux_sublist jobs [], ?_, ?_, ?_⟩
  · intro j hj
    exact dedupeAux_find jobs [] j hj
  · intro j hj
    rcases dedupeAux_covers jobs [] j hj with h | h
    · exact absurd h (List.not_mem_nil _)
    · exact h
  · exact dedupeAux_eq_self _ []
      (fun j _ => List.not_mem_nil _) (dedupeAux_pairwise jobs [])

-- Witness for C4 at a concrete list with one duplicated link.
theorem dedupe_first_seen_witness :
    demoInput.find? (fun x => jobKey x == jobKey acmeJob) = some acmeJob ∧
    (∃ j', j' ∈ dedupe_jobs demoInput ∧ jobKey j' = jobKey dupJob) ∧
    dedupe_jobs (dedupe_jobs demoInput) = dedupe_jobs demoInput := by
  have h := dedupe_first_seen_stable_idempotent demoInput
  exact ⟨h.2.1 acmeJob (by decide), h.2.2.1 dupJob (by decide), h.2.2.2⟩

/-- Claim C5: the Remotive title filter is the claimed case-insensitive rule,
and the three example titles behave as the spec says. -/
theorem remotive_title_filter :
    (∀ t, remotiveTitleMatch t = specDataAnalystRule t) ∧
    remotiveTitleMatch "Senior Data Analyst" = true ∧
    remotiveTitleMatch "Data Scientist" = false ∧
    remotiveTitleMatch "Analyst of Data Systems" = true := by
  exact ⟨fun _ => rfl, by decide, by decide, by decide⟩

/-- Claim C6 (corrected): with an absent key `send_email` fails before any
notifier step and the error propagates through `main`; with a present and
non-empty key the credential check passes. (A present-but-empty key also
fails, see the counterexample.) -/
theorem send_email_requires_key :
    (∀ body, send_email none body =
      Except.error "SENDGRID_API_KEY not set in environment") ∧
    (∀ key body, key ≠ "" →
      send_email (some key) body =
        Except.ok [NotifierStep.buildMessage, NotifierStep.apiSend]) ∧
    (∀ l1 l2 l3 : List Job, main none l1 l2 l3 =
      Except.error "SENDGRID_API_KEY not set in environment") := by
  refine ⟨fun body => rfl, ?_, fun l1 l2 l3 => rfl⟩
  intro key body hk
  simp [send_email, pyTruthy, hk]

-- Witness for C6 at a concrete non-empty key and body.
theorem send_email_requires_key_witness :
    send_email (some "SG.x") "<p>b</p>" =
      Except.ok [NotifierStep.buildMessage, NotifierStep.apiSend] :=
  send_email_requires_key.2.1 "SG.x" "<p>b</p>" (by decide)

-- Counterexample for C6 as stated: a present-but-empty key still raises.
theorem send_email_present_empty_key_cex :
    send_email (some "") "<p>x</p>" =
      Except.error "SENDGRID_API_KEY not set in environment" := rfl

/-- Claim C7: every fetcher maps any failed round trip to the empty list, and
a failing source leaves the other sources' contributions to the concatenated
pipeline input unchanged. -/
theorem fetcher_failure_isolated :
    (∀ r : FetchResult (List RemotiveListing),
      r.isFailure = true → fetch_remotive r = []) ∧
    (∀ (uj : String → String → String) (r : FetchResult (List Anchor)),
      r.isFailure = true → fetch_topstartups uj r = []) ∧
    (∀ (uj : String → String → String) (r : FetchResult (List Anchor)),
      r.isFailure = true → fetch_wellfound uj r = []) ∧
    (∀ (uj : String → String → String) r1 (r2 r3 : FetchResult (List Anchor)),
      r2.isFailure = true →
        allJobs uj r1 r2 r3 = fetch_remotive r1 ++ fetch_wellfound uj r3) := by
  have ht : ∀ (uj : String → String → String) (r : FetchResult (List Anchor)),
      r.isFailure = true → fetch_topstartups uj r = [] := by
    intro uj r h
    cases r with
    | ok p => simp [FetchResult.isFailure] at h
    | netError => rfl
    | httpError s => rfl
    | parseError => rfl
  refine ⟨?_, ht, ?_, ?_⟩
  · intro r h
    cases r with
    | ok p => simp [FetchResult.isFailure] at h
    | netError => rfl
    | httpError s => rfl
    | parseError => rfl
  · intro uj r h
    cases r with
    | ok p => simp [FetchResult.isFailure] at h
    | netError => rfl
    | httpError s => rfl
    | parseError => rfl
  · intro uj r1 r2 r3 h
    simp [allJobs, ht uj r2 h]

-- Witness for C7: a concrete network failure of the second source.
theorem fetcher_failure_isolated_witness :
    fetch_remotive FetchResult.netError = [] ∧
    allJobs ujConcat (FetchResult.ok []) FetchResult.netError (FetchResult.ok []) =
      fetch_remotive (FetchResult.ok []) ++ fetch_wellfound ujConcat (FetchResult.ok []) := by
  exact ⟨fetcher_failure_isolated.1 FetchResult.netError rfl,
         fetcher_failure_isolated.2.2.2 ujConcat (FetchResult.ok [])
           FetchResult.netError (FetchResult.ok []) rfl⟩

/-- Claim C8: with fetchers returning two jobs, an empty (failed) list, and
one job duplicating a link of the first source, the deduplicated list keeps
two jobs and the notified body is the table with exactly two body rows. -/
theorem end_to_end_two_rows :
    fetch_topstartups ujConcat FetchResult.netError = [] ∧
    dedupe_jobs ([acmeJob, betaJob] ++ [] ++ [dupJob]) = [acmeJob, betaJob] ∧
    main (some "key") [acmeJob, betaJob] [] [dupJob] =
      Except.ok (build_html_table [acmeJob, betaJob]) ∧
    countSubstr (rowsStr (dedupe_jobs ([acmeJob, betaJob] ++ [] ++ [dupJob]))) "<tr>" = 2 := by
  exact ⟨rfl, by decide, rfl, by decide⟩

/-- Claim C9: rendering the single Acme job yields the fixed heading,
attribution and header row, and exactly one body row whose cells are, in
order, the company, title, location, an "Apply" anchor to the link, the
keywords and the skills. -/
theorem build_table_single_job :
    rowsStr [acmeJob] =
      "<tr><td>Acme</td><td>Data Analyst</td><td>Remote</td><td><a href=\x27https://x/1\x27>Apply</a></td><td>k</td><td>s</td></tr>" ∧
    build_html_table [acmeJob] =
      "<h2>Daily Remote Data Analyst Jobs — Consolidated</h2><p>Source: Remotive API + TopStartups + Wellfound (best-effort scraping)</p><table border=\x271\x27 cellpadding=\x276\x27 style=\x27border-collapse:collapse;\x27><thead><tr><th>Company</th><th>Title</th><th>Location</th><th>Link</th><th>Keywords</th><th>Skills</th></tr></thead><tbody><tr><td>Acme</td><td>Data Analyst</td><td>Remote</td><td><a href=\x27https://x/1\x27>Apply</a></td><td>k</td><td>s</td></tr></tbody></table>" ∧
    countSubstr (rowsStr [acmeJob]) "<tr>" = 1 := by
  exact ⟨rfl, rfl, by decide⟩

theorem topstartupsAnchorJob_link (uj : String → String → String)
    (a : Anchor) (j : Job) (h : topstartupsAnchorJob uj a = some j) :
    j.link = some (resolveHref uj "https://topstartups.io" a.href) := by
  unfold topstartupsAnchorJob at h
  split at h
  · exact Option.noConfusion h
  · split at h
    · exact Option.noConfusion h
    · split at h
      · cases h; rfl
      · exact Option.noConfusion h

theorem wellfoundAnchorJob_link (uj : String → String → String)
    (a : Anchor) (j : Job) (h : wellfoundAnchorJob uj a = some j) :
    j.link = some (resolveHref uj "https://wellfound.com" a.href) := by
  unfold wellfoundAnchorJob at h
  split at h
  · exact Option.noConfusion h
  · split at h
    · exact Option.noConfusion h
    · split at h
      · cases h; rfl
      · exact Option.noConfusion h

/-- Claim C10: every job a scrape fetcher emits carries the raw href when the
href starts with "http", and the href joined against the source's base URL
otherwise; "mailto:x" lacks the prefix while "httpx/y" has it. -/
theorem scrape_link_resolution :
    (∀ (uj : String → String → String) (a : Anchor) (j : Job),
      topstartupsAnchorJob uj a = some j →
        (pyStartswith a.href "http" = true → j.link = some a.href) ∧
        (pyStartswith a.href "http" = false →
          j.link = some (uj "https://topstartups.io" a.href))) ∧
    (∀ (uj : String → String → String) (a : Anchor) (j : Job),
      wellfoundAnchorJob uj a = some j →
        (pyStartswith a.href "http" = true → j.link = some a.href) ∧
        (pyStartswith a.href "http" = false →
          j.link = some (uj "https://wellfound.com" a.href))) ∧
    pyStartswith "mailto:x" "http" = false ∧
    pyStartswith "httpx/y" "http" = true := by
  refine ⟨?_, ?_, by decide, by decide⟩
  · intro uj a j h
    have hl := topstartupsAnchorJob_link uj a j h
    constructor
    · intro hs
      rw [hl]
      simp [resolveHref, hs]
    · intro hs
      rw [hl]
      simp [resolveHref, hs]
  · intro uj a j h
    have hl := wellfoundAnchorJob_link uj a j h
    constructor
    · intro hs
      rw [hl]
      simp [resolveHref, hs]
    · intro hs
      rw [hl]
      simp [resolveHref, hs]

-- Witness for C10: the "mailto:x" href goes through the join function.
theorem scrape_link_resolution_witness :
    demoMailtoJob.link = some (ujConcat "https://topstartups.io" "mailto:x") :=
  (scrape_link_resolution.1 ujConcat ⟨"data analyst", "mailto:x"⟩
    demoMailtoJob (by decide)).2 (by decide)

end DailyJobSearch
